import Mathlib

/-!
Shallow embedding of the guided-breathing widget (React app in `src/`):
the session state machine, per-frame tick computation, and the music
controller (primary YouTube backend with local-audio fallback).

Time is modelled in integer milliseconds.  JavaScript's `%` on integers is
truncated remainder (sign of the dividend), i.e. `Int.tmod`; `Math.ceil` of
an exact integer quotient is `mathCeilDiv`; `Math.round` is `jsRound`.
-/

/-- `AppState` from `types.ts`. -/
inductive AppState where
  | Idle
  | Active
  | Paused
  | Complete
deriving DecidableEq, Repr

/-- `BreathingPhase` from `types.ts`. -/
inductive BreathingPhase where
  | Inhale
  | HoldIn
  | Exhale
  | HoldOut
deriving DecidableEq, Repr

/-- `PhaseConfig` from `types.ts` (duration in milliseconds). -/
structure PhaseConfig where
  name : String
  duration : ℤ
  announcement : String
deriving DecidableEq, Repr

/-- `PHASES` table from `constants.ts`. -/
def PHASES : BreathingPhase → PhaseConfig
  | BreathingPhase.Inhale => { name := "吸氣…", duration := 4000, announcement := "吸氣開始" }
  | BreathingPhase.HoldIn => { name := "閉氣…", duration := 2000, announcement := "閉氣開始" }
  | BreathingPhase.Exhale => { name := "吐氣…", duration := 6000, announcement := "吐氣開始" }
  | BreathingPhase.HoldOut => { name := "休息…", duration := 4000, announcement := "休息開始" }

/-- The fixed object-key iteration order of `PHASES` (insertion order in
`constants.ts`), used by `Object.keys` / `Object.values`. -/
def phasesOrder : List BreathingPhase :=
  [BreathingPhase.Inhale, BreathingPhase.HoldIn, BreathingPhase.Exhale, BreathingPhase.HoldOut]

/-- `CYCLE_DURATION` from `constants.ts`: sum of all phase durations. -/
def CYCLE_DURATION : ℤ := (phasesOrder.map (fun p => (PHASES p).duration)).sum

/-- `DURATION_OPTIONS` from `constants.ts` (seconds). -/
def DURATION_OPTIONS : List ℤ := [120, 180, 300]

/-- `DEFAULT_DURATION` from `constants.ts` (seconds). -/
def DEFAULT_DURATION : ℤ := 120

/-- JavaScript `%` on integers: truncated remainder, sign of the dividend. -/
def jsMod (a b : ℤ) : ℤ := Int.tmod a b

/-- `Math.ceil (x / y)` for integers `x y` with `y > 0`: the exact ceiling of
the rational quotient, expressed with integer floor division. -/
def mathCeilDiv (x y : ℤ) : ℤ := -(-x / y)

/-- `Math.round x` : round half up, `⌊x + 1/2⌋`. -/
def jsRound (x : ℚ) : ℤ := ⌊x + 1/2⌋

/-- `YT.PlayerState` from the YouTube IFrame API declaration. -/
inductive YTPlayerState where
  | UNSTARTED
  | ENDED
  | PLAYING
  | PAUSED
  | BUFFERING
  | CUED
deriving DecidableEq, Repr

/-- The modelled fields of the singleton `ytPlayer` (primary backend).
`playerState` is the externally reported play-state (the real player reaches
`PLAYING` asynchronously, or never — which is why the watchdog exists), so
`playVideo()` only records the request in `playRequested`; `pauseVideo()` /
`stopVideo()` withdraw it and settle the state. -/
structure YTPlayer where
  volume : ℤ
  muted : Bool
  playerState : YTPlayerState
  playRequested : Bool
deriving DecidableEq, Repr

/-- The modelled fields of the singleton `fallbackAudio` element (backup
backend).  `volume` is the HTMLMediaElement 0–1 fraction. -/
structure FallbackAudio where
  volume : ℚ
  muted : Bool
  paused : Bool
  currentTime : ℤ
deriving DecidableEq, Repr

/-- The pending `smoothVolumeInterval` of `smoothSetVolume`: interpolation
source, target, and the number of interval firings so far. -/
structure SmoothVolume where
  fromVol : ℤ
  target : ℤ
  i : ℕ
deriving DecidableEq, Repr

/-- `steps` in `smoothSetVolume`. -/
def smoothSteps : ℕ := 10

/-- `stepDuration` in `smoothSetVolume` (ms between interval firings). -/
def smoothStepDuration : ℤ := 12

/-- The watchdog delay armed by `playMusic` (ms). -/
def FALLBACK_TIMEOUT_DELAY : ℤ := 3000

/-- A pending watchdog timeout: the `setTimeout` delay together with the
`volume` and `isMuted` values captured by the `playMusic` closure when the
watchdog was armed.  The timeout callback reads these captured render
values, not the component state at firing time. -/
structure Watchdog where
  delay : ℤ
  volume : ℤ
  isMuted : Bool
deriving DecidableEq, Repr

/-- The whole mutable state of the `App` component: React state, refs, and
the module-level singletons.  `fallbackTimeout` is `some w` while the
watchdog `w` is pending. -/
structure AppModel where
  appState : AppState
  duration : ℤ
  remainingTime : ℤ
  currentPhase : BreathingPhase
  ariaAnnouncement : String
  isMuted : Bool
  volume : ℤ
  useFallback : Bool
  showYoutubeError : Bool
  fallbackTimeout : Option Watchdog
  startTime : ℤ
  pauseTime : ℤ
  lastPhase : Option BreathingPhase
  ytPlayer : Option YTPlayer
  fallbackAudio : Option FallbackAudio
  smoothVolumeInterval : Option SmoothVolume
deriving DecidableEq, Repr

/-- The component's initial state (`useState` initialisers with the
persisted-preference defaults; the singletons not yet created). -/
def initialState : AppModel where
  appState := AppState.Idle
  duration := DEFAULT_DURATION
  remainingTime := DEFAULT_DURATION
  currentPhase := BreathingPhase.HoldOut
  ariaAnnouncement := ""
  isMuted := true
  volume := 40
  useFallback := false
  showYoutubeError := false
  fallbackTimeout := none
  startTime := 0
  pauseTime := 0
  lastPhase := none
  ytPlayer := none
  fallbackAudio := none
  smoothVolumeInterval := none

/-- `smoothSetVolume` (module level): clears any pending interval and starts
a fresh interpolation from the player's current volume. -/
def smoothSetVolume (targetVolume : ℤ) (s : AppModel) : AppModel :=
  match s.ytPlayer with
  | none => s
  | some p =>
      { s with smoothVolumeInterval := some { fromVol := p.volume, target := targetVolume, i := 0 } }

/-- One firing of the `smoothVolumeInterval` callback. -/
def smoothTick (s : AppModel) : AppModel :=
  match s.smoothVolumeInterval with
  | none => s
  | some sm =>
      let i : ℕ := sm.i + 1
      let newVol : ℤ :=
        jsRound ((sm.fromVol : ℚ) + ((sm.target : ℚ) - (sm.fromVol : ℚ)) / (smoothSteps : ℚ) * (i : ℚ))
      let s1 :=
        match s.ytPlayer with
        | some p => { s with ytPlayer := some { p with volume := newVol } }
        | none => s
      if smoothSteps ≤ i then { s1 with smoothVolumeInterval := none }
      else { s1 with smoothVolumeInterval := some { sm with i := i } }

/-- `playMusic`: on the backup backend just play; on the primary backend
request playback and (re-)arm the 3-second watchdog.  `volumeClosure` and
`isMutedClosure` are the `volume` and `isMuted` values the `useCallback`
closure captured from its render; the armed watchdog snapshots them. -/
def playMusic (volumeClosure : ℤ) (isMutedClosure : Bool) (s : AppModel) : AppModel :=
  if s.useFallback then
    match s.fallbackAudio with
    | some a => { s with fallbackAudio := some { a with paused := false } }
    | none => s
  else
    match s.ytPlayer with
    | some p =>
        { s with ytPlayer := some { p with playRequested := true },
                 fallbackTimeout := some { delay := FALLBACK_TIMEOUT_DELAY,
                                           volume := volumeClosure,
                                           isMuted := isMutedClosure } }
    | none => s

/-- The firing of the watchdog timeout armed by `playMusic` (only a pending
timeout can fire): if the primary backend does not report `PLAYING`,
permanently switch to the backup, surface the error notice, mirror onto the
backup the volume/mute values the closure captured when the watchdog was
armed, and start it.  Firing consumes the pending timeout. -/
def watchdogFire (s : AppModel) : AppModel :=
  match s.fallbackTimeout with
  | none => s
  | some w =>
      let s0 := { s with fallbackTimeout := none }
      match s0.ytPlayer with
      | some p =>
          if p.playerState ≠ YTPlayerState.PLAYING then
            let s1 := { s0 with showYoutubeError := true, useFallback := true,
                                ytPlayer := some { p with playRequested := false,
                                                          playerState := YTPlayerState.UNSTARTED } }
            match s1.fallbackAudio with
            | some a =>
                { s1 with fallbackAudio := some { a with volume := (w.volume : ℚ) / 100,
                                                         muted := w.isMuted, paused := false } }
            | none => s1
          else s0
      | none => s0

/-- The player's `onStateChange` handler: records the externally reported
play-state; when it reports `PLAYING` the pending watchdog is cleared. -/
def ytStateChange (st : YTPlayerState) (s : AppModel) : AppModel :=
  match s.ytPlayer with
  | none => s
  | some p =>
      let s1 := { s with ytPlayer := some { p with playerState := st } }
      if st = YTPlayerState.PLAYING ∧ s.fallbackTimeout ≠ none then
        { s1 with fallbackTimeout := none }
      else s1

/-- `pauseMusic`: cancel any pending watchdog and pause the active backend. -/
def pauseMusic (s : AppModel) : AppModel :=
  let s0 := { s with fallbackTimeout := none }
  if s0.useFallback then
    match s0.fallbackAudio with
    | some a => { s0 with fallbackAudio := some { a with paused := true } }
    | none => s0
  else
    match s0.ytPlayer with
    | some p =>
        { s0 with ytPlayer := some { p with playRequested := false,
                                            playerState := YTPlayerState.PAUSED } }
    | none => s0

/-- `stopMusic`: cancel any pending watchdog, pause the active backend and
rewind it to the beginning. -/
def stopMusic (s : AppModel) : AppModel :=
  let s0 := { s with fallbackTimeout := none }
  if s0.useFallback then
    match s0.fallbackAudio with
    | some a => { s0 with fallbackAudio := some { a with paused := true, currentTime := 0 } }
    | none => s0
  else
    match s0.ytPlayer with
    | some p =>
        { s0 with ytPlayer := some { p with playRequested := false,
                                            playerState := YTPlayerState.PAUSED } }
    | none => s0

/-- `handleStart` (`now` is `performance.now()`). -/
def handleStart (now : ℤ) (s : AppModel) : AppModel :=
  let s0 := { s with remainingTime := s.duration }
  let s1 := if !s0.isMuted then playMusic s0.volume s0.isMuted s0 else s0
  { s1 with appState := AppState.Active, startTime := now, pauseTime := 0, lastPhase := none }

/-- `handlePause`. -/
def handlePause (now : ℤ) (s : AppModel) : AppModel :=
  let s0 := pauseMusic s
  { s0 with appState := AppState.Paused, pauseTime := now }

/-- `handleResume`: shifts the start timestamp forward by the paused
duration, so elapsed time excludes the pause. -/
def handleResume (now : ℤ) (s : AppModel) : AppModel :=
  let s0 := if !s.isMuted then playMusic s.volume s.isMuted s else s
  let pauseDuration := now - s0.pauseTime
  { s0 with startTime := s0.startTime + pauseDuration, appState := AppState.Active }

/-- `handleEnd`. -/
def handleEnd (s : AppModel) : AppModel :=
  let s0 := stopMusic s
  { s0 with appState := AppState.Idle }

/-- `handleComplete`. -/
def handleComplete (s : AppModel) : AppModel :=
  let s0 := stopMusic s
  { s0 with appState := AppState.Complete, ariaAnnouncement := "練習完成" }

/-- `handleRestart` composed with the `setTimeout(handleStart, 100)` it
schedules; `now` is the clock value when the delayed start runs. -/
def handleRestart (now : ℤ) (s : AppModel) : AppModel :=
  handleStart now { s with appState := AppState.Idle }

/-- The phase-lookup loop of `tick`, as the first phase (in `phasesOrder`)
whose cumulative-duration window contains the value; `none` when the loop
falls through without a `break`. -/
def phaseLoopOpt (elapsedInCycle : ℤ) : List BreathingPhase → ℤ → Option BreathingPhase
  | [], _ => none
  | p :: rest, cumulativeDuration =>
      let c := cumulativeDuration + (PHASES p).duration
      if elapsedInCycle < c then some p else phaseLoopOpt elapsedInCycle rest c

/-- The phase computed by `tick`'s loop: the loop's `phase` variable is
initialised to `HoldOut` and overwritten on `break`. -/
def phaseLoop (elapsedInCycle : ℤ) : BreathingPhase :=
  (phaseLoopOpt elapsedInCycle phasesOrder 0).getD BreathingPhase.HoldOut

/-- `tick` (one animation-frame callback at clock value `timestamp`). -/
def tick (timestamp : ℤ) (s : AppModel) : AppModel :=
  let elapsed := timestamp - s.startTime
  let newRemainingTime := max 0 (s.duration * 1000 - elapsed)
  let s1 := { s with remainingTime := mathCeilDiv newRemainingTime 1000 }
  if newRemainingTime ≤ 0 then handleComplete s1
  else
    let elapsedInCycle := jsMod elapsed CYCLE_DURATION
    let phase := phaseLoop elapsedInCycle
    let s2 := { s1 with currentPhase := phase }
    if s2.lastPhase ≠ some phase then
      { s2 with ariaAnnouncement := (PHASES phase).announcement, lastPhase := some phase }
    else s2

/-- The `visibilitychange` listener: backgrounding while Active forces a
pause. -/
def handleVisibilityChange (hidden : Bool) (now : ℤ) (s : AppModel) : AppModel :=
  if hidden ∧ s.appState = AppState.Active then handlePause now s else s

/-- `handleMuteToggle`. -/
def handleMuteToggle (s : AppModel) : AppModel :=
  let newMutedState := !s.isMuted
  let s0 := { s with isMuted := newMutedState }
  let s1 :=
    if s0.useFallback then
      match s0.fallbackAudio with
      | some a => { s0 with fallbackAudio := some { a with muted := newMutedState } }
      | none => s0
    else
      match s0.ytPlayer with
      | some p => { s0 with ytPlayer := some { p with muted := newMutedState } }
      | none => s0
  -- the `playMusic` closure invoked here is the current render's, so it
  -- still captures the pre-toggle `isMuted` (and `volume`)
  let s2 :=
    if !newMutedState ∧ (s1.appState = AppState.Active ∨ s1.appState = AppState.Paused) then
      playMusic s.volume s.isMuted s1
    else s1
  if newMutedState then pauseMusic s2 else s2

/-- `handleVolumeChange` with the parsed slider value `newVolume`. -/
def handleVolumeChange (newVolume : ℤ) (s : AppModel) : AppModel :=
  let s0 := { s with volume := newVolume }
  if s0.useFallback then
    match s0.fallbackAudio with
    | some a =>
        let a1 := { a with volume := (newVolume : ℚ) / 100 }
        let newMutedState : Bool := decide (newVolume = 0)
        if a1.muted ≠ newMutedState then
          { s0 with fallbackAudio := some { a1 with muted := newMutedState },
                    isMuted := newMutedState }
        else { s0 with fallbackAudio := some a1 }
    | none => s0
  else
    match s0.ytPlayer with
    | some p =>
        if p.playerState ≠ YTPlayerState.UNSTARTED then
          let s1 := smoothSetVolume newVolume s0
          let currentlyMuted := p.muted
          if newVolume > 0 ∧ currentlyMuted then
            match s1.ytPlayer with
            | some p1 => { s1 with ytPlayer := some { p1 with muted := false }, isMuted := false }
            | none => s1
          else if newVolume = 0 ∧ ¬currentlyMuted then
            match s1.ytPlayer with
            | some p1 => { s1 with ytPlayer := some { p1 with muted := true }, isMuted := true }
            | none => s1
          else s1
        else s0
    | none => s0

/-- `initPlayer`: creates the singleton player (idempotent).  A freshly
created IFrame player starts unmuted at volume 100 in the UNSTARTED state. -/
def initPlayer (s : AppModel) : AppModel :=
  match s.ytPlayer with
  | some _ => s
  | none =>
      { s with ytPlayer := some { volume := 100, muted := false,
                                  playerState := YTPlayerState.UNSTARTED, playRequested := false } }

/-- The player's `onReady` handler: mirrors the persisted volume and mute
preference onto the player. -/
def ytReady (s : AppModel) : AppModel :=
  match s.ytPlayer with
  | none => s
  | some p => { s with ytPlayer := some { p with volume := s.volume, muted := s.isMuted } }

/-- The `keydown` listener. -/
def handleKeyDown (key : String) (now : ℤ) (s : AppModel) : AppModel :=
  if s.appState = AppState.Idle ∧ key = "Enter" then handleStart now s
  else if s.appState = AppState.Active ∧ key = " " then handlePause now s
  else if s.appState = AppState.Paused ∧ key = " " then handleResume now s
  else if (s.appState = AppState.Active ∨ s.appState = AppState.Paused) ∧ key = "Escape" then
    handleEnd s
  else s

/-- Every entry point that can mutate the component state: user input,
scheduled callbacks, and external player events. -/
inductive AppEvent where
  | evStart (now : ℤ)
  | evPause (now : ℤ)
  | evResume (now : ℤ)
  | evEnd
  | evRestart (now : ℤ)
  | evTick (timestamp : ℤ)
  | evVisibility (hidden : Bool) (now : ℤ)
  | evMuteToggle
  | evVolumeChange (v : ℤ)
  | evWatchdogFire
  | evSmoothTick
  | evYtStateChange (st : YTPlayerState)
  | evInitPlayer
  | evYtReady
  | evKeyDown (key : String) (now : ℤ)

/-- Dispatch of an event to its handler. -/
def stepEvent : AppEvent → AppModel → AppModel
  | AppEvent.evStart now, s => handleStart now s
  | AppEvent.evPause now, s => handlePause now s
  | AppEvent.evResume now, s => handleResume now s
  | AppEvent.evEnd, s => handleEnd s
  | AppEvent.evRestart now, s => handleRestart now s
  | AppEvent.evTick t, s => tick t s
  | AppEvent.evVisibility hidden now, s => handleVisibilityChange hidden now s
  | AppEvent.evMuteToggle, s => handleMuteToggle s
  | AppEvent.evVolumeChange v, s => handleVolumeChange v s
  | AppEvent.evWatchdogFire, s => watchdogFire s
  | AppEvent.evSmoothTick, s => smoothTick s
  | AppEvent.evYtStateChange st, s => ytStateChange st s
  | AppEvent.evInitPlayer, s => initPlayer s
  | AppEvent.evYtReady, s => ytReady s
  | AppEvent.evKeyDown key now, s => handleKeyDown key now s

/-! ### Helper lemmas about field preservation -/

theorem stopMusic_remainingTime (s : AppModel) : (stopMusic s).remainingTime = s.remainingTime := by
  unfold stopMusic; dsimp only; split <;> split <;> rfl

theorem handleComplete_remainingTime (s : AppModel) :
    (handleComplete s).remainingTime = s.remainingTime := by
  unfold handleComplete; exact stopMusic_remainingTime s

theorem tick_remainingTime (t : ℤ) (s : AppModel) :
    (tick t s).remainingTime = mathCeilDiv (max 0 (s.duration * 1000 - (t - s.startTime))) 1000 := by
  unfold tick
  dsimp only
  split
  · rw [handleComplete_remainingTime]
  · split <;> rfl

theorem playMusic_startTime (v : ℤ) (m : Bool) (s : AppModel) :
    (playMusic v m s).startTime = s.startTime := by
  unfold playMusic; split <;> split <;> rfl

theorem playMusic_pauseTime (v : ℤ) (m : Bool) (s : AppModel) :
    (playMusic v m s).pauseTime = s.pauseTime := by
  unfold playMusic; split <;> split <;> rfl

theorem playMusic_duration (v : ℤ) (m : Bool) (s : AppModel) :
    (playMusic v m s).duration = s.duration := by
  unfold playMusic; split <;> split <;> rfl

theorem pauseMusic_startTime (s : AppModel) : (pauseMusic s).startTime = s.startTime := by
  unfold pauseMusic; dsimp only; split <;> split <;> rfl

theorem pauseMusic_duration (s : AppModel) : (pauseMusic s).duration = s.duration := by
  unfold pauseMusic; dsimp only; split <;> split <;> rfl

theorem handlePause_startTime (now : ℤ) (s : AppModel) :
    (handlePause now s).startTime = s.startTime := by
  unfold handlePause; rw [pauseMusic_startTime]

theorem handlePause_duration (now : ℤ) (s : AppModel) :
    (handlePause now s).duration = s.duration := by
  unfold handlePause; rw [pauseMusic_duration]

theorem handlePause_pauseTime (now : ℤ) (s : AppModel) :
    (handlePause now s).pauseTime = now := rfl

theorem handleResume_startTime (now : ℤ) (s : AppModel) :
    (handleResume now s).startTime = s.startTime + (now - s.pauseTime) := by
  unfold handleResume
  dsimp only
  split
  · rw [playMusic_startTime, playMusic_pauseTime]
  · rfl

theorem handleResume_duration (now : ℤ) (s : AppModel) :
    (handleResume now s).duration = s.duration := by
  unfold handleResume
  dsimp only
  split
  · rw [playMusic_duration]
  · rfl

/-! ### Claim theorems -/

/-- The state right after pressing Start at clock 0 with all defaults
(duration 120 s, default phase table). -/
def sessionC1 : AppModel := handleStart 0 initialState

/-- **C1** With duration = 120 s and the default phase table (Inhale 4000 ms,
HoldIn 2000 ms, Exhale 6000 ms, HoldOut 4000 ms), `tick` assigns Inhale at
elapsed 0 s, HoldIn at 4.0 s, Exhale at 6.0 s, HoldOut at 12.0 s, Inhale
again at 16.0 s (cycle restart), and at elapsed 120.0 s the session
transitions to Complete instead of computing a phase. -/
theorem default_session_phase_schedule :
    sessionC1.duration = 120 ∧
    (PHASES BreathingPhase.Inhale).duration = 4000 ∧
    (PHASES BreathingPhase.HoldIn).duration = 2000 ∧
    (PHASES BreathingPhase.Exhale).duration = 6000 ∧
    (PHASES BreathingPhase.HoldOut).duration = 4000 ∧
    (tick 0 sessionC1).currentPhase = BreathingPhase.Inhale ∧
    (tick 4000 sessionC1).currentPhase = BreathingPhase.HoldIn ∧
    (tick 6000 sessionC1).currentPhase = BreathingPhase.Exhale ∧
    (tick 12000 sessionC1).currentPhase = BreathingPhase.HoldOut ∧
    (tick 16000 sessionC1).currentPhase = BreathingPhase.Inhale ∧
    (tick 16000 sessionC1).appState = AppState.Active ∧
    (tick 120000 sessionC1).appState = AppState.Complete ∧
    (tick 120000 sessionC1).currentPhase = sessionC1.currentPhase := by
  decide

/-- **C2** Pausing an Active session at clock `tp` and resuming after a
non-negative interval `d` shifts the start timestamp forward by exactly `d`,
so the remaining time computed by the first tick after Resume (at clock
`tp + d`) equals the remaining time a tick at the pause instant would have
reported: pause time is excluded from elapsed time. -/
theorem pause_resume_preserves_remaining (s : AppModel) (tp d : ℤ)
    (hA : s.appState = AppState.Active) (hd : 0 ≤ d) :
    (handleResume (tp + d) (handlePause tp s)).startTime = s.startTime + d ∧
    (tick (tp + d) (handleResume (tp + d) (handlePause tp s))).remainingTime =
      (tick tp s).remainingTime := by
  have h1 : (handleResume (tp + d) (handlePause tp s)).startTime = s.startTime + d := by
    rw [handleResume_startTime, handlePause_startTime, handlePause_pauseTime]; ring
  refine ⟨h1, ?_⟩
  rw [tick_remainingTime, tick_remainingTime, h1, handleResume_duration, handlePause_duration]
  have h2 : tp + d - (s.startTime + d) = tp - s.startTime := by ring
  rw [h2]

/-- Witness for **C2** at a concrete session: start at clock 0 with the
defaults, pause at 5000 ms, resume 100000 ms later. -/
theorem pause_resume_preserves_remaining_witness :
    (handleResume (5000 + 100000) (handlePause 5000 sessionC1)).startTime =
      sessionC1.startTime + 100000 ∧
    (tick (5000 + 100000) (handleResume (5000 + 100000) (handlePause 5000 sessionC1))).remainingTime
      = (tick 5000 sessionC1).remainingTime :=
  pause_resume_preserves_remaining sessionC1 5000 100000 (by decide) (by decide)

/-- **C7** Whenever the page becomes hidden while the session is Active, the
`visibilitychange` handler performs exactly `handlePause`, so the session is
Paused afterwards: the Active state is never retained across a visibility
change to hidden. -/
theorem hidden_while_active_pauses (s : AppModel) (now : ℤ)
    (h : s.appState = AppState.Active) :
    handleVisibilityChange true now s = handlePause now s ∧
    (handleVisibilityChange true now s).appState = AppState.Paused := by
  have he : handleVisibilityChange true now s = handlePause now s := by
    unfold handleVisibilityChange
    rw [if_pos ⟨rfl, h⟩]
  exact ⟨he, by rw [he]; rfl⟩

/-- Witness for **C7** on the concrete started session. -/
theorem hidden_while_active_pauses_witness :
    handleVisibilityChange true 7000 sessionC1 = handlePause 7000 sessionC1 ∧
    (handleVisibilityChange true 7000 sessionC1).appState = AppState.Paused :=
  hidden_while_active_pauses sessionC1 7000 (by decide)

/-- **C8** For every non-negative elapsed time, `elapsed mod CYCLE_DURATION`
is strictly less than the sum of the four phase durations (CYCLE_DURATION is
defined as that sum and every duration is positive), so the phase-lookup
loop in `tick` always breaks with a phase from the table and the `HoldOut`
default initialiser is never the value actually used. -/
theorem phase_lookup_never_defaults (e : ℤ) (he : 0 ≤ e) :
    CYCLE_DURATION =
      (PHASES BreathingPhase.Inhale).duration + (PHASES BreathingPhase.HoldIn).duration +
        (PHASES BreathingPhase.Exhale).duration + (PHASES BreathingPhase.HoldOut).duration ∧
    0 ≤ jsMod e CYCLE_DURATION ∧
    jsMod e CYCLE_DURATION < CYCLE_DURATION ∧
    (phaseLoopOpt (jsMod e CYCLE_DURATION) phasesOrder 0).isSome = true := by
  have h0 : 0 ≤ jsMod e CYCLE_DURATION := Int.tmod_nonneg _ he
  have h1 : jsMod e CYCLE_DURATION < CYCLE_DURATION := Int.tmod_lt_of_pos _ (by decide)
  refine ⟨by decide, h0, h1, ?_⟩
  have h2 : jsMod e CYCLE_DURATION < 16000 := lt_of_lt_of_le h1 (by decide)
  simp only [phaseLoopOpt, phasesOrder, PHASES]
  split_ifs <;> simp_all

/-- Witness for **C8** at elapsed = 17000 ms. -/
theorem phase_lookup_never_defaults_witness :
    CYCLE_DURATION =
      (PHASES BreathingPhase.Inhale).duration + (PHASES BreathingPhase.HoldIn).duration +
        (PHASES BreathingPhase.Exhale).duration + (PHASES BreathingPhase.HoldOut).duration ∧
    0 ≤ jsMod 17000 CYCLE_DURATION ∧
    jsMod 17000 CYCLE_DURATION < CYCLE_DURATION ∧
    (phaseLoopOpt (jsMod 17000 CYCLE_DURATION) phasesOrder 0).isSome = true :=
  phase_lookup_never_defaults 17000 (by decide)

/-! ### `useFallback` is only ever written by the watchdog -/

theorem playMusic_useFallback (v : ℤ) (m : Bool) (s : AppModel) :
    (playMusic v m s).useFallback = s.useFallback := by
  unfold playMusic; split <;> split <;> rfl

theorem pauseMusic_useFallback (s : AppModel) : (pauseMusic s).useFallback = s.useFallback := by
  unfold pauseMusic; dsimp only; split <;> split <;> rfl

theorem stopMusic_useFallback (s : AppModel) : (stopMusic s).useFallback = s.useFallback := by
  unfold stopMusic; dsimp only; split <;> split <;> rfl

theorem smoothSetVolume_useFallback (v : ℤ) (s : AppModel) :
    (smoothSetVolume v s).useFallback = s.useFallback := by
  unfold smoothSetVolume; split <;> rfl

theorem smoothTick_useFallback (s : AppModel) : (smoothTick s).useFallback = s.useFallback := by
  unfold smoothTick; dsimp only
  split
  · rfl
  · split <;> split <;> rfl

theorem ytStateChange_useFallback (st : YTPlayerState) (s : AppModel) :
    (ytStateChange st s).useFallback = s.useFallback := by
  unfold ytStateChange; dsimp only; split
  · rfl
  · split <;> rfl

theorem initPlayer_useFallback (s : AppModel) : (initPlayer s).useFallback = s.useFallback := by
  unfold initPlayer; split <;> rfl

theorem ytReady_useFallback (s : AppModel) : (ytReady s).useFallback = s.useFallback := by
  unfold ytReady; split <;> rfl

theorem handleStart_useFallback (now : ℤ) (s : AppModel) :
    (handleStart now s).useFallback = s.useFallback := by
  unfold handleStart; dsimp only; split
  · rw [playMusic_useFallback]
  · rfl

theorem handlePause_useFallback (now : ℤ) (s : AppModel) :
    (handlePause now s).useFallback = s.useFallback := by
  unfold handlePause; rw [pauseMusic_useFallback]

theorem handleResume_useFallback (now : ℤ) (s : AppModel) :
    (handleResume now s).useFallback = s.useFallback := by
  unfold handleResume; dsimp only; split
  · rw [playMusic_useFallback]
  · rfl

theorem handleEnd_useFallback (s : AppModel) : (handleEnd s).useFallback = s.useFallback := by
  unfold handleEnd; rw [stopMusic_useFallback]

theorem handleComplete_useFallback (s : AppModel) :
    (handleComplete s).useFallback = s.useFallback := by
  unfold handleComplete; rw [stopMusic_useFallback]

theorem handleRestart_useFallback (now : ℤ) (s : AppModel) :
    (handleRestart now s).useFallback = s.useFallback := by
  unfold handleRestart; rw [handleStart_useFallback]

theorem tick_useFallback (t : ℤ) (s : AppModel) : (tick t s).useFallback = s.useFallback := by
  unfold tick; dsimp only; split
  · rw [handleComplete_useFallback]
  · split <;> rfl

theorem handleVisibilityChange_useFallback (hidden : Bool) (now : ℤ) (s : AppModel) :
    (handleVisibilityChange hidden now s).useFallback = s.useFallback := by
  unfold handleVisibilityChange; split
  · rw [handlePause_useFallback]
  · rfl

theorem handleMuteToggle_useFallback (s : AppModel) :
    (handleMuteToggle s).useFallback = s.useFallback := by
  unfold handleMuteToggle; dsimp only
  split <;> split <;> split <;> split <;>
    simp only [pauseMusic_useFallback, playMusic_useFallback] <;>
    first
      | rfl
      | (split <;> simp only [pauseMusic_useFallback, playMusic_useFallback] <;> rfl)

theorem handleVolumeChange_useFallback (v : ℤ) (s : AppModel) :
    (handleVolumeChange v s).useFallback = s.useFallback := by
  unfold handleVolumeChange; dsimp only
  split
  · split
    · split <;> rfl
    · rfl
  · split
    · split
      · unfold smoothSetVolume
        split <;> split <;> try split
        all_goals first | rfl | (split <;> rfl)
      · rfl
    · rfl

theorem handleKeyDown_useFallback (key : String) (now : ℤ) (s : AppModel) :
    (handleKeyDown key now s).useFallback = s.useFallback := by
  unfold handleKeyDown
  split
  · rw [handleStart_useFallback]
  · split
    · rw [handlePause_useFallback]
    · split
      · rw [handleResume_useFallback]
      · split
        · rw [handleEnd_useFallback]
        · rfl

theorem watchdogFire_useFallback_mono (s : AppModel) (h : s.useFallback = true) :
    (watchdogFire s).useFallback = true := by
  unfold watchdogFire; dsimp only
  split
  · exact h
  · split
    · split
      · split <;> rfl
      · exact h
    · exact h

/-- Once in fallback mode, no event brings the session back to the primary
backend: every entry point preserves `useFallback = true`. -/
theorem stepEvent_fallback_permanent (e : AppEvent) (s : AppModel) (h : s.useFallback = true) :
    (stepEvent e s).useFallback = true := by
  cases e <;>
    simp only [stepEvent, handleStart_useFallback, handlePause_useFallback,
      handleResume_useFallback, handleEnd_useFallback, handleRestart_useFallback,
      tick_useFallback, handleVisibilityChange_useFallback, handleMuteToggle_useFallback,
      handleVolumeChange_useFallback, smoothTick_useFallback, ytStateChange_useFallback,
      initPlayer_useFallback, ytReady_useFallback, handleKeyDown_useFallback] <;>
    first
      | exact h
      | exact watchdogFire_useFallback_mono s h

/-- A freshly created primary player (UNSTARTED, not yet playing). -/
def ytP0 : YTPlayer := { volume := 100, muted := false, playerState := YTPlayerState.UNSTARTED,
                         playRequested := false }

/-- A concrete backup audio element fixture. -/
def audio0 : FallbackAudio := { volume := 1, muted := false, paused := true, currentTime := 0 }

/-- Initial state with the primary player created. -/
def primaryState : AppModel := { initialState with ytPlayer := some ytP0 }

/-- A watchdog snapshot: armed with volume 40 while muted. -/
def wd0 : Watchdog := { delay := FALLBACK_TIMEOUT_DELAY, volume := 40, isMuted := true }

/-- Primary player created, backup element mounted, watchdog pending. -/
def watchdogState : AppModel :=
  { initialState with ytPlayer := some ytP0, fallbackAudio := some audio0,
                      fallbackTimeout := some wd0 }

/-- A state already switched to the backup backend. -/
def fallbackModeState : AppModel :=
  { initialState with useFallback := true, fallbackAudio := some audio0 }

/-- A muted Active session with the primary player and the backup element. -/
def c3Pre : AppModel :=
  { initialState with appState := AppState.Active, ytPlayer := some ytP0,
                      fallbackAudio := some audio0 }

/-- The state right after unmuting `c3Pre`: playback was requested on the
primary backend and the watchdog armed — by the current render's closure,
which still captures the pre-toggle `isMuted = true`. -/
def c3Armed : AppModel := handleMuteToggle c3Pre

/-- **C3 counterexample** The claim says the switch copies the *current*
volume and mute values onto the backup.  Unmuting arms the watchdog through
the pre-toggle render's `playMusic` closure, so when it fires the current
persisted mute is `false` but the backup is started with `muted = true`
(the armed-time snapshot): the program does not copy the current values. -/
theorem watchdog_stale_closure_counterexample :
    c3Armed.isMuted = false ∧
    c3Armed.fallbackTimeout = some { delay := 3000, volume := 40, isMuted := true } ∧
    (watchdogFire c3Armed).useFallback = true ∧
    (watchdogFire c3Armed).fallbackAudio.map FallbackAudio.muted = some true := by
  decide

/-- **C3 amended** `playMusic` on the primary backend arms a 3000 ms
watchdog that snapshots the closure's volume and mute values; when the
watchdog fires and the primary backend's reported play-state is not
PLAYING, the system switches to the backup backend, sets the user-visible
error flag, copies the snapshotted (armed-time) volume and mute values onto
the backup and starts it; and once switched, no event ever returns the
playback mode to primary within the session. -/
theorem youtube_watchdog_fallback
    (v1 : ℤ) (m1 : Bool) (s1 : AppModel) (p1 : YTPlayer)
    (h1f : s1.useFallback = false) (h1p : s1.ytPlayer = some p1)
    (s2 : AppModel) (w2 : Watchdog) (p2 : YTPlayer) (a2 : FallbackAudio)
    (h2w : s2.fallbackTimeout = some w2) (h2p : s2.ytPlayer = some p2)
    (h2ns : p2.playerState ≠ YTPlayerState.PLAYING) (h2a : s2.fallbackAudio = some a2)
    (e : AppEvent) (s3 : AppModel) (h3 : s3.useFallback = true) :
    (playMusic v1 m1 s1).fallbackTimeout =
      some { delay := FALLBACK_TIMEOUT_DELAY, volume := v1, isMuted := m1 } ∧
    FALLBACK_TIMEOUT_DELAY = 3000 ∧
    (watchdogFire s2).useFallback = true ∧
    (watchdogFire s2).showYoutubeError = true ∧
    (watchdogFire s2).fallbackAudio =
      some { a2 with volume := (w2.volume : ℚ) / 100, muted := w2.isMuted, paused := false } ∧
    (stepEvent e s3).useFallback = true := by
  refine ⟨?_, rfl, ?_, ?_, ?_, stepEvent_fallback_permanent e s3 h3⟩
  · simp [playMusic, h1f, h1p]
  · simp [watchdogFire, h2w, h2p, h2ns, h2a]
  · simp [watchdogFire, h2w, h2p, h2ns, h2a]
  · simp [watchdogFire, h2w, h2p, h2ns, h2a]

/-- Witness for **C3 amended**: concrete states before `playMusic`, at
watchdog firing, and after the switch. -/
theorem youtube_watchdog_fallback_witness :
    (playMusic 40 true primaryState).fallbackTimeout =
      some { delay := FALLBACK_TIMEOUT_DELAY, volume := 40, isMuted := true } ∧
    FALLBACK_TIMEOUT_DELAY = 3000 ∧
    (watchdogFire watchdogState).useFallback = true ∧
    (watchdogFire watchdogState).showYoutubeError = true ∧
    (watchdogFire watchdogState).fallbackAudio =
      some { audio0 with volume := (wd0.volume : ℚ) / 100, muted := wd0.isMuted,
                         paused := false } ∧
    (stepEvent AppEvent.evMuteToggle fallbackModeState).useFallback = true :=
  youtube_watchdog_fallback 40 true primaryState ytP0 rfl rfl
    watchdogState wd0 ytP0 audio0 rfl rfl (by decide) rfl
    AppEvent.evMuteToggle fallbackModeState rfl

/-- **C5** Toggling mute while the session is Active or Paused immediately
changes playback on the active music backend: unmuted→muted pauses it
(backup: `paused := true`; primary: the play request is withdrawn and the
player paused), and muted→unmuted starts playback on it (backup:
`paused := false`; primary: playback is requested). -/
theorem mute_toggle_controls_playback
    (s1 : AppModel) (a1 : FallbackAudio) (h1m : s1.isMuted = false)
    (h1f : s1.useFallback = true) (h1a : s1.fallbackAudio = some a1)
    (s2 : AppModel) (p2 : YTPlayer) (h2m : s2.isMuted = false)
    (h2f : s2.useFallback = false) (h2p : s2.ytPlayer = some p2)
    (s3 : AppModel) (a3 : FallbackAudio) (h3m : s3.isMuted = true)
    (h3s : s3.appState = AppState.Active ∨ s3.appState = AppState.Paused)
    (h3f : s3.useFallback = true) (h3a : s3.fallbackAudio = some a3)
    (s4 : AppModel) (p4 : YTPlayer) (h4m : s4.isMuted = true)
    (h4s : s4.appState = AppState.Active ∨ s4.appState = AppState.Paused)
    (h4f : s4.useFallback = false) (h4p : s4.ytPlayer = some p4) :
    (handleMuteToggle s1).fallbackAudio = some { a1 with muted := true, paused := true } ∧
    (handleMuteToggle s2).ytPlayer =
      some { p2 with muted := true, playRequested := false,
                     playerState := YTPlayerState.PAUSED } ∧
    (handleMuteToggle s3).fallbackAudio = some { a3 with muted := false, paused := false } ∧
    (handleMuteToggle s4).ytPlayer = some { p4 with muted := false, playRequested := true } := by
  refine ⟨?_, ?_, ?_, ?_⟩
  · simp [handleMuteToggle, pauseMusic, playMusic, h1m, h1f, h1a]
  · simp [handleMuteToggle, pauseMusic, playMusic, h2m, h2f, h2p]
  · rcases h3s with h3s | h3s <;>
      simp [handleMuteToggle, pauseMusic, playMusic, h3m, h3f, h3a, h3s]
  · rcases h4s with h4s | h4s <;>
      simp [handleMuteToggle, pauseMusic, playMusic, h4m, h4f, h4p, h4s]

/-- Unmuted session in fallback mode. -/
def muteW1 : AppModel :=
  { initialState with isMuted := false, useFallback := true, fallbackAudio := some audio0 }

/-- Unmuted session on the primary backend. -/
def muteW2 : AppModel := { initialState with isMuted := false, ytPlayer := some ytP0 }

/-- Muted Active session in fallback mode. -/
def muteW3 : AppModel :=
  { initialState with appState := AppState.Active, useFallback := true,
                      fallbackAudio := some audio0 }

/-- Muted Paused session on the primary backend. -/
def muteW4 : AppModel :=
  { initialState with appState := AppState.Paused, ytPlayer := some ytP0 }

/-- Witness for **C5** at four concrete states. -/
theorem mute_toggle_controls_playback_witness :
    (handleMuteToggle muteW1).fallbackAudio = some { audio0 with muted := true, paused := true } ∧
    (handleMuteToggle muteW2).ytPlayer =
      some { ytP0 with muted := true, playRequested := false,
                       playerState := YTPlayerState.PAUSED } ∧
    (handleMuteToggle muteW3).fallbackAudio =
      some { audio0 with muted := false, paused := false } ∧
    (handleMuteToggle muteW4).ytPlayer = some { ytP0 with muted := false, playRequested := true } :=
  mute_toggle_controls_playback
    muteW1 audio0 rfl rfl rfl
    muteW2 ytP0 rfl rfl rfl
    muteW3 audio0 rfl (Or.inl rfl) rfl rfl
    muteW4 ytP0 rfl (Or.inr rfl) rfl rfl

/-- **C10** If fallback mode is off and the primary player is either not yet
created or reports UNSTARTED, a volume-slider change persists the new volume
value but changes nothing else: the resulting state is exactly the old state
with the `volume` field replaced (no backend volume set, no smoothing
interval started, backend and persisted mute untouched), for every new
volume value. -/
theorem volume_change_noop_when_primary_unready
    (s1 : AppModel) (v1 : ℤ) (h1f : s1.useFallback = false) (h1p : s1.ytPlayer = none)
    (s2 : AppModel) (v2 : ℤ) (p2 : YTPlayer) (h2f : s2.useFallback = false)
    (h2p : s2.ytPlayer = some p2) (h2u : p2.playerState = YTPlayerState.UNSTARTED) :
    handleVolumeChange v1 s1 = { s1 with volume := v1 } ∧
    handleVolumeChange v2 s2 = { s2 with volume := v2 } := by
  constructor
  · simp [handleVolumeChange, h1f, h1p]
  · simp [handleVolumeChange, h2f, h2p, h2u]

/-- Witness for **C10**: volume 0 with no player, volume 55 with an
UNSTARTED player (the latter muted with new volume above 0). -/
theorem volume_change_noop_when_primary_unready_witness :
    handleVolumeChange 0 initialState = { initialState with volume := 0 } ∧
    handleVolumeChange 55 primaryState = { primaryState with volume := 55 } :=
  volume_change_noop_when_primary_unready
    initialState 0 rfl rfl
    primaryState 55 ytP0 rfl rfl rfl

/-- A state with no active music backend and an unmuted persisted
preference. -/
def c4State : AppModel := { initialState with isMuted := false }

/-- **C4 counterexample** The claim quantifies over *every* volume-change
input, but when fallback mode is off and the primary player does not exist,
`handleVolumeChange 0` leaves `muted = false` and writes nothing to the
persisted mute preference: setting volume to 0 does *not* result in
`muted = true`. -/
theorem volume_zero_not_muted_counterexample :
    c4State.useFallback = false ∧ c4State.ytPlayer = none ∧ c4State.isMuted = false ∧
    (handleVolumeChange 0 c4State).volume = 0 ∧
    (handleVolumeChange 0 c4State).isMuted = false := by
  decide

/-- **C4 amended** Provided an active music backend exists (the backup audio
element in fallback mode, or a created primary player not in the UNSTARTED
state) and its mute flag agrees with the persisted mute preference: setting
volume to 0 results in muted = true, and setting volume above 0 while muted
results in muted = false — on the backend and in the persisted mute
preference alike. -/
theorem volume_mute_sync
    (sA : AppModel) (aA : FallbackAudio) (hAf : sA.useFallback = true)
    (hAa : sA.fallbackAudio = some aA) (hAsync : aA.muted = sA.isMuted)
    (sB : AppModel) (aB : FallbackAudio) (vB : ℤ) (hBf : sB.useFallback = true)
    (hBa : sB.fallbackAudio = some aB) (hBsync : aB.muted = sB.isMuted)
    (hBm : sB.isMuted = true) (hBv : 0 < vB)
    (sC : AppModel) (pC : YTPlayer) (hCf : sC.useFallback = false)
    (hCp : sC.ytPlayer = some pC) (hCu : pC.playerState ≠ YTPlayerState.UNSTARTED)
    (hCsync : pC.muted = sC.isMuted)
    (sD : AppModel) (pD : YTPlayer) (vD : ℤ) (hDf : sD.useFallback = false)
    (hDp : sD.ytPlayer = some pD) (hDu : pD.playerState ≠ YTPlayerState.UNSTARTED)
    (hDsync : pD.muted = sD.isMuted) (hDm : sD.isMuted = true) (hDv : 0 < vD) :
    (handleVolumeChange 0 sA).isMuted = true ∧
    (handleVolumeChange 0 sA).fallbackAudio =
      some { aA with volume := ((0 : ℤ) : ℚ) / 100, muted := true } ∧
    (handleVolumeChange vB sB).isMuted = false ∧
    (handleVolumeChange vB sB).fallbackAudio =
      some { aB with volume := (vB : ℚ) / 100, muted := false } ∧
    (handleVolumeChange 0 sC).isMuted = true ∧
    (handleVolumeChange 0 sC).ytPlayer = some { pC with muted := true } ∧
    (handleVolumeChange vD sD).isMuted = false ∧
    (handleVolumeChange vD sD).ytPlayer = some { pD with muted := false } := by
  obtain ⟨aAv, aAm, aAp, aAt⟩ := aA
  obtain ⟨aBv, aBm, aBp, aBt⟩ := aB
  obtain ⟨pCv, pCm, pCs, pCr⟩ := pC
  obtain ⟨pDv, pDm, pDs, pDr⟩ := pD
  have hBv' : vB ≠ 0 := by omega
  have hDv' : vD ≠ 0 := by omega
  dsimp only at hAsync hBsync hCsync hDsync hCu hDu
  refine ⟨?_, ?_, ?_, ?_, ?_, ?_, ?_, ?_⟩
  · cases hm : sA.isMuted <;>
      simp [handleVolumeChange, hAf, hAa, hAsync, hm]
  · cases hm : sA.isMuted <;>
      simp [handleVolumeChange, hAf, hAa, hAsync, hm]
  · simp [handleVolumeChange, hBf, hBa, hBsync, hBm, hBv']
  · simp [handleVolumeChange, hBf, hBa, hBsync, hBm, hBv']
  · cases hm : sC.isMuted <;>
      simp [handleVolumeChange, smoothSetVolume, hCf, hCp, hCu, hCsync, hm]
  · cases hm : sC.isMuted <;>
      simp [handleVolumeChange, smoothSetVolume, hCf, hCp, hCu, hCsync, hm]
  · simp [handleVolumeChange, smoothSetVolume, hDf, hDp, hDu, hDsync, hDm, hDv, hDv']
  · simp [handleVolumeChange, smoothSetVolume, hDf, hDp, hDu, hDsync, hDm, hDv, hDv']

/-- A muted backup audio element fixture. -/
def audioM : FallbackAudio := { volume := 1, muted := true, paused := true, currentTime := 0 }

/-- Fallback mode, muted, backend mute in sync. -/
def c4B : AppModel := { initialState with useFallback := true, fallbackAudio := some audioM }

/-- An unmuted playing primary player. -/
def ytPlaying : YTPlayer := { volume := 100, muted := false, playerState := YTPlayerState.PLAYING,
                              playRequested := true }

/-- A muted playing primary player. -/
def ytMutedPlaying : YTPlayer := { volume := 100, muted := true,
                                   playerState := YTPlayerState.PLAYING, playRequested := true }

/-- Primary mode, unmuted, backend mute in sync. -/
def c4C : AppModel := { initialState with isMuted := false, ytPlayer := some ytPlaying }

/-- Primary mode, muted, backend mute in sync. -/
def c4D : AppModel := { initialState with ytPlayer := some ytMutedPlaying }

/-- Witness for **C4 amended** at four concrete states. -/
theorem volume_mute_sync_witness :
    (handleVolumeChange 0 muteW1).isMuted = true ∧
    (handleVolumeChange 0 muteW1).fallbackAudio =
      some { audio0 with volume := ((0 : ℤ) : ℚ) / 100, muted := true } ∧
    (handleVolumeChange 40 c4B).isMuted = false ∧
    (handleVolumeChange 40 c4B).fallbackAudio =
      some { audioM with volume := ((40 : ℤ) : ℚ) / 100, muted := false } ∧
    (handleVolumeChange 0 c4C).isMuted = true ∧
    (handleVolumeChange 0 c4C).ytPlayer = some { ytPlaying with muted := true } ∧
    (handleVolumeChange 40 c4D).isMuted = false ∧
    (handleVolumeChange 40 c4D).ytPlayer = some { ytMutedPlaying with muted := false } :=
  volume_mute_sync
    muteW1 audio0 rfl rfl rfl
    c4B audioM 40 rfl rfl rfl rfl (by decide)
    c4C ytPlaying rfl rfl (by decide) rfl
    c4D ytMutedPlaying 40 rfl rfl (by decide) rfl rfl (by decide)

/-! ### Volume smoothing -/

theorem smoothSteps_eq : smoothSteps = 10 := rfl

theorem jsRound_intCast (t : ℤ) : jsRound (t : ℚ) = t := by
  unfold jsRound
  have h0 : ⌊(1 / 2 : ℚ)⌋ = 0 := by
    rw [Int.floor_eq_zero_iff]
    constructor <;> norm_num
  rw [Int.floor_int_add, h0, add_zero]

theorem smoothTick_step (s : AppModel) (f tg : ℤ) (i : ℕ) (p : YTPlayer)
    (hs : s.smoothVolumeInterval = some ⟨f, tg, i⟩) (hp : s.ytPlayer = some p) :
    (smoothTick s).ytPlayer =
      some { p with
        volume := jsRound ((f : ℚ) + ((tg : ℚ) - (f : ℚ)) / (smoothSteps : ℚ) * ((i + 1 : ℕ) : ℚ)) } ∧
    (smoothTick s).smoothVolumeInterval =
      (if smoothSteps ≤ i + 1 then none else some ⟨f, tg, i + 1⟩) := by
  unfold smoothTick
  simp only [hs, hp]
  split <;> simp

theorem smoothTick_iterate (j : ℕ) (s : AppModel) (f tg : ℤ) (i : ℕ) (p : YTPlayer)
    (hs : s.smoothVolumeInterval = some ⟨f, tg, i⟩) (hp : s.ytPlayer = some p)
    (hj : 1 ≤ j) (hij : i + j ≤ smoothSteps) :
    ((smoothTick^[j]) s).ytPlayer.map YTPlayer.volume =
      some (jsRound ((f : ℚ) + ((tg : ℚ) - (f : ℚ)) / (smoothSteps : ℚ) * ((i + j : ℕ) : ℚ))) ∧
    ((smoothTick^[j]) s).smoothVolumeInterval =
      (if smoothSteps ≤ i + j then none else some ⟨f, tg, i + j⟩) := by
  rw [smoothSteps_eq] at hij
  induction j generalizing s i p with
  | zero => omega
  | succ n ih =>
    rw [Function.iterate_succ_apply]
    obtain ⟨hyt, hint⟩ := smoothTick_step s f tg i p hs hp
    cases n with
    | zero =>
      simp only [Function.iterate_zero_apply]
      exact ⟨by rw [hyt]; rfl, hint⟩
    | succ m =>
      have hlt : ¬ smoothSteps ≤ i + 1 := by rw [smoothSteps_eq]; omega
      have hint' : (smoothTick s).smoothVolumeInterval = some ⟨f, tg, i + 1⟩ := by
        rw [hint, if_neg hlt]
      have hres := ih (smoothTick s) (i + 1)
        { p with volume :=
            jsRound ((f : ℚ) + ((tg : ℚ) - (f : ℚ)) / (smoothSteps : ℚ) * ((i + 1 : ℕ) : ℚ)) }
        hint' hyt (by omega) (by omega)
      have hidx : i + 1 + (m + 1) = i + (m + 1 + 1) := by omega
      rw [hidx] at hres
      exact hres

theorem handleVolumeChange_primary (v : ℤ) (s : AppModel) (p : YTPlayer)
    (hf : s.useFallback = false) (hp : s.ytPlayer = some p)
    (hu : p.playerState ≠ YTPlayerState.UNSTARTED) :
    (handleVolumeChange v s).smoothVolumeInterval = some ⟨p.volume, v, 0⟩ ∧
    ∃ p', (handleVolumeChange v s).ytPlayer = some p' := by
  unfold handleVolumeChange smoothSetVolume
  simp only [hf, hp, hu]
  split_ifs <;> simp_all

theorem smooth_final_value (f tg : ℤ) :
    jsRound ((f : ℚ) + ((tg : ℚ) - (f : ℚ)) / (smoothSteps : ℚ) * ((0 + smoothSteps : ℕ) : ℚ))
      = tg := by
  have hv : (f : ℚ) + ((tg : ℚ) - (f : ℚ)) / (smoothSteps : ℚ) * ((0 + smoothSteps : ℕ) : ℚ)
      = (tg : ℚ) := by
    rw [Nat.zero_add]
    rw [show ((smoothSteps : ℕ) : ℚ) = 10 from by norm_num [smoothSteps]]
    rw [div_mul_cancel₀ _ (by norm_num : (10 : ℚ) ≠ 0)]
    ring
  rw [hv, jsRound_intCast]

/-- **C6** A volume change while the primary backend is active starts a
smoothing interval: a linear interpolation from the player's current volume
to the target in `smoothSteps = 10` discrete steps spaced
`smoothStepDuration = 12` ms apart (after the `j`-th firing the player
volume is the rounded interpolation value at `j/10`), with the player's
volume equal to the target after the final step and the interval cleared.
A volume change while the backup backend is active sets the backup's volume
directly in a single assignment and starts no smoothing interval. -/
theorem volume_smoothing
    (s1 : AppModel) (p1 : YTPlayer) (v1 : ℤ)
    (h1f : s1.useFallback = false) (h1p : s1.ytPlayer = some p1)
    (h1u : p1.playerState ≠ YTPlayerState.UNSTARTED)
    (s2 : AppModel) (a2 : FallbackAudio) (v2 : ℤ)
    (h2f : s2.useFallback = true) (h2a : s2.fallbackAudio = some a2) :
    smoothSteps = 10 ∧ smoothStepDuration = 12 ∧
    (handleVolumeChange v1 s1).smoothVolumeInterval = some ⟨p1.volume, v1, 0⟩ ∧
    (∀ j : ℕ, 1 ≤ j → j ≤ smoothSteps →
      ((smoothTick^[j]) (handleVolumeChange v1 s1)).ytPlayer.map YTPlayer.volume =
        some (jsRound ((p1.volume : ℚ) +
          ((v1 : ℚ) - (p1.volume : ℚ)) / (smoothSteps : ℚ) * (j : ℚ)))) ∧
    ((smoothTick^[smoothSteps]) (handleVolumeChange v1 s1)).ytPlayer.map YTPlayer.volume
      = some v1 ∧
    ((smoothTick^[smoothSteps]) (handleVolumeChange v1 s1)).smoothVolumeInterval = none ∧
    (handleVolumeChange v2 s2).fallbackAudio.map FallbackAudio.volume = some ((v2 : ℚ) / 100) ∧
    (handleVolumeChange v2 s2).smoothVolumeInterval = s2.smoothVolumeInterval := by
  obtain ⟨hint, p', hp'⟩ := handleVolumeChange_primary v1 s1 p1 h1f h1p h1u
  have hone : 1 ≤ smoothSteps := by rw [smoothSteps_eq]; omega
  refine ⟨rfl, rfl, hint, ?_, ?_, ?_, ?_, ?_⟩
  · intro j hj1 hj2
    have h := (smoothTick_iterate j _ p1.volume v1 0 p' hint hp' hj1 (by omega)).1
    simpa using h
  · have h := (smoothTick_iterate smoothSteps _ p1.volume v1 0 p' hint hp' hone (by omega)).1
    rw [h, smooth_final_value]
  · have h := (smoothTick_iterate smoothSteps _ p1.volume v1 0 p' hint hp' hone (by omega)).2
    rw [h, if_pos (by omega)]
  · unfold handleVolumeChange
    simp only [h2f, h2a]
    split_ifs <;> simp
  · unfold handleVolumeChange
    simp only [h2f, h2a]
    split_ifs <;> simp

/-- Witness for **C6**: slider to 80 on the playing primary player, slider
to 70 in fallback mode. -/
theorem volume_smoothing_witness :
    smoothSteps = 10 ∧ smoothStepDuration = 12 ∧
    (handleVolumeChange 80 c4C).smoothVolumeInterval = some ⟨ytPlaying.volume, 80, 0⟩ ∧
    ((smoothTick^[smoothSteps]) (handleVolumeChange 80 c4C)).ytPlayer.map YTPlayer.volume
      = some 80 ∧
    ((smoothTick^[smoothSteps]) (handleVolumeChange 80 c4C)).smoothVolumeInterval = none ∧
    (handleVolumeChange 70 fallbackModeState).fallbackAudio.map FallbackAudio.volume
      = some (((70 : ℤ) : ℚ) / 100) ∧
    (handleVolumeChange 70 fallbackModeState).smoothVolumeInterval
      = fallbackModeState.smoothVolumeInterval := by
  obtain ⟨hA, hB, hC, _, hE, hF, hG, hH⟩ :=
    volume_smoothing c4C ytPlaying 80 rfl rfl (by decide) fallbackModeState audio0 70 rfl rfl
  exact ⟨hA, hB, hC, hE, hF, hG, hH⟩

/-! ### Announcement behaviour of `tick` -/

theorem tick_not_complete_cond (t : ℤ) (s : AppModel)
    (h : 0 < s.duration * 1000 - (t - s.startTime)) :
    ¬ max 0 (s.duration * 1000 - (t - s.startTime)) ≤ 0 := by
  have := le_max_right (0 : ℤ) (s.duration * 1000 - (t - s.startTime))
  omega

theorem tick_phase (t : ℤ) (s : AppModel) (h : 0 < s.duration * 1000 - (t - s.startTime)) :
    (tick t s).currentPhase = phaseLoop (jsMod (t - s.startTime) CYCLE_DURATION) := by
  unfold tick
  dsimp only
  rw [if_neg (tick_not_complete_cond t s h)]
  split <;> rfl

theorem tick_announce_changed (t : ℤ) (s : AppModel)
    (h : 0 < s.duration * 1000 - (t - s.startTime))
    (hne : s.lastPhase ≠ some (phaseLoop (jsMod (t - s.startTime) CYCLE_DURATION))) :
    (tick t s).ariaAnnouncement =
      (PHASES (phaseLoop (jsMod (t - s.startTime) CYCLE_DURATION))).announcement ∧
    (tick t s).lastPhase = some (phaseLoop (jsMod (t - s.startTime) CYCLE_DURATION)) := by
  unfold tick
  dsimp only
  rw [if_neg (tick_not_complete_cond t s h)]
  rw [if_pos hne]
  exact ⟨rfl, rfl⟩

theorem tick_announce_unchanged (t : ℤ) (s : AppModel)
    (h : 0 < s.duration * 1000 - (t - s.startTime))
    (heq : s.lastPhase = some (phaseLoop (jsMod (t - s.startTime) CYCLE_DURATION))) :
    (tick t s).ariaAnnouncement = s.ariaAnnouncement ∧ (tick t s).lastPhase = s.lastPhase := by
  unfold tick
  dsimp only
  rw [if_neg (tick_not_complete_cond t s h)]
  rw [if_neg (by simpa using heq)]
  exact ⟨rfl, rfl⟩

theorem phaseLoop_inhale (x : ℤ) (h0 : 0 ≤ x)
    (h4 : x < (PHASES BreathingPhase.Inhale).duration) :
    phaseLoop (jsMod x CYCLE_DURATION) = BreathingPhase.Inhale := by
  have hd : (PHASES BreathingPhase.Inhale).duration = 4000 := rfl
  have hc : CYCLE_DURATION = 16000 := rfl
  have hx : jsMod x CYCLE_DURATION = x := by
    unfold jsMod
    rw [Int.tmod_eq_emod h0 (by decide)]
    exact Int.emod_eq_of_lt h0 (by omega)
  rw [hx]
  unfold phaseLoop phasesOrder
  simp only [phaseLoopOpt]
  rw [if_pos (by omega : x < 0 + (PHASES BreathingPhase.Inhale).duration)]
  rfl

/-- **C9** On every Start (including the auto-start after Restart) the
last-announced-phase tracker is reset to `none`, so the first tick of the
session (falling in the initial Inhale window, before completion) always
emits the announcement of the initial phase Inhale even though no phase
change occurred within the session; on subsequent ticks an announcement is
emitted exactly when the computed phase differs from the previously
announced one. -/
theorem phase_announcement_on_start
    (now : ℤ) (s0 : AppModel)
    (s1 : AppModel) (t1 : ℤ) (h1l : s1.lastPhase = none)
    (h1a : 0 ≤ t1 - s1.startTime)
    (h1b : t1 - s1.startTime < (PHASES BreathingPhase.Inhale).duration)
    (h1c : 0 < s1.duration * 1000 - (t1 - s1.startTime))
    (s2 : AppModel) (t2 : ℤ) (q2 : BreathingPhase) (h2l : s2.lastPhase = some q2)
    (h2c : 0 < s2.duration * 1000 - (t2 - s2.startTime))
    (h2ne : phaseLoop (jsMod (t2 - s2.startTime) CYCLE_DURATION) ≠ q2)
    (s3 : AppModel) (t3 : ℤ) (q3 : BreathingPhase) (h3l : s3.lastPhase = some q3)
    (h3c : 0 < s3.duration * 1000 - (t3 - s3.startTime))
    (h3eq : phaseLoop (jsMod (t3 - s3.startTime) CYCLE_DURATION) = q3) :
    (handleStart now s0).lastPhase = none ∧
    (handleRestart now s0).lastPhase = none ∧
    (tick t1 s1).currentPhase = BreathingPhase.Inhale ∧
    (tick t1 s1).ariaAnnouncement = (PHASES BreathingPhase.Inhale).announcement ∧
    (tick t1 s1).lastPhase = some BreathingPhase.Inhale ∧
    (tick t2 s2).ariaAnnouncement =
      (PHASES (phaseLoop (jsMod (t2 - s2.startTime) CYCLE_DURATION))).announcement ∧
    (tick t2 s2).lastPhase = some (phaseLoop (jsMod (t2 - s2.startTime) CYCLE_DURATION)) ∧
    (tick t3 s3).ariaAnnouncement = s3.ariaAnnouncement ∧
    (tick t3 s3).lastPhase = s3.lastPhase := by
  have hph1 : phaseLoop (jsMod (t1 - s1.startTime) CYCLE_DURATION) = BreathingPhase.Inhale :=
    phaseLoop_inhale _ h1a h1b
  have h1ne : s1.lastPhase ≠ some (phaseLoop (jsMod (t1 - s1.startTime) CYCLE_DURATION)) := by
    rw [h1l]; exact fun hcon => Option.noConfusion hcon
  obtain ⟨h1ann, h1last⟩ := tick_announce_changed t1 s1 h1c h1ne
  have h2ne' : s2.lastPhase ≠ some (phaseLoop (jsMod (t2 - s2.startTime) CYCLE_DURATION)) := by
    rw [h2l]
    intro hcon
    exact h2ne (Option.some.inj hcon).symm
  obtain ⟨h2ann, h2last⟩ := tick_announce_changed t2 s2 h2c h2ne'
  obtain ⟨h3ann, h3last⟩ := tick_announce_unchanged t3 s3 h3c (by rw [h3l, h3eq])
  refine ⟨rfl, rfl, ?_, ?_, ?_, h2ann, h2last, h3ann, h3last⟩
  · rw [tick_phase t1 s1 h1c, hph1]
  · rw [h1ann, hph1]
  · rw [h1last, hph1]

/-- The session state after the first tick (at clock 0): Inhale announced. -/
def tickedC1 : AppModel := tick 0 sessionC1

/-- Witness for **C9**: start/restart from the initial state; first tick of
the default session at 100 ms; a tick at 4000 ms (phase change to HoldIn)
and a tick at 1000 ms (still Inhale) after the first tick. -/
theorem phase_announcement_on_start_witness :
    (handleStart 0 initialState).lastPhase = none ∧
    (handleRestart 0 initialState).lastPhase = none ∧
    (tick 100 sessionC1).currentPhase = BreathingPhase.Inhale ∧
    (tick 100 sessionC1).ariaAnnouncement = (PHASES BreathingPhase.Inhale).announcement ∧
    (tick 100 sessionC1).lastPhase = some BreathingPhase.Inhale ∧
    (tick 4000 tickedC1).ariaAnnouncement =
      (PHASES (phaseLoop (jsMod (4000 - tickedC1.startTime) CYCLE_DURATION))).announcement ∧
    (tick 4000 tickedC1).lastPhase =
      some (phaseLoop (jsMod (4000 - tickedC1.startTime) CYCLE_DURATION)) ∧
    (tick 1000 tickedC1).ariaAnnouncement = tickedC1.ariaAnnouncement ∧
    (tick 1000 tickedC1).lastPhase = tickedC1.lastPhase :=
  phase_announcement_on_start 0 initialState
    sessionC1 100 (by decide) (by decide) (by decide) (by decide)
    tickedC1 4000 BreathingPhase.Inhale (by decide) (by decide) (by decide)
    tickedC1 1000 BreathingPhase.Inhale (by decide) (by decide) (by decide)
